import Mathlib

/-!
Verification of the homework-status polling bot (`homework.py`, `exceptions.py`)
against its natural-language specification.

The Python program is shallowly embedded: Python values that can occur in the
API documents are the inductive `PyVal`; raised exceptions are `PyErr`; each
Python function becomes a Lean function returning `Except PyErr _`; the body of
one iteration of `main`'s `while True:` loop becomes the state-transition
function `iterate` on `BotState`, with the network outcome and the Telegram
transport outcome of that iteration supplied as inputs.
-/

/-- A Python value as it can appear in a decoded JSON document of the API
(`None`, `int`, `str`, `list`, `dict` with string keys — JSON objects always
have string keys). Python `==` on these values is structural equality. -/
inductive PyVal where
  | null : PyVal
  | int (n : Int) : PyVal
  | str (s : String) : PyVal
  | list (xs : List PyVal) : PyVal
  | dict (kvs : List (String × PyVal)) : PyVal
deriving Repr

mutual

/-- Structural equality on `PyVal`, modelling Python `==` on JSON values. -/
def PyVal.beq : PyVal → PyVal → Bool
  | .null, .null => true
  | .int m, .int n => m == n
  | .str s, .str t => s == t
  | .list xs, .list ys => PyVal.beqList xs ys
  | .dict xs, .dict ys => PyVal.beqDict xs ys
  | _, _ => false

def PyVal.beqList : List PyVal → List PyVal → Bool
  | [], [] => true
  | x :: xs, y :: ys => PyVal.beq x y && PyVal.beqList xs ys
  | _, _ => false

def PyVal.beqDict : List (String × PyVal) → List (String × PyVal) → Bool
  | [], [] => true
  | (k, v) :: xs, (l, w) :: ys => k == l && (PyVal.beq v w && PyVal.beqDict xs ys)
  | _, _ => false

end

mutual

theorem PyVal.beq_iff : ∀ (a b : PyVal), (PyVal.beq a b = true) ↔ a = b
  | .null, b => by cases b <;> simp [PyVal.beq]
  | .int m, b => by cases b <;> simp [PyVal.beq]
  | .str s, b => by cases b <;> simp [PyVal.beq]
  | .list xs, b => by
      cases b with
      | list ys =>
          simp only [PyVal.beq]
          rw [PyVal.beqList_iff]
          exact ⟨fun h => by rw [h], fun h => by cases h; rfl⟩
      | null => exact iff_of_false (by simp [PyVal.beq]) (fun h => by cases h)
      | int n => exact iff_of_false (by simp [PyVal.beq]) (fun h => by cases h)
      | str s => exact iff_of_false (by simp [PyVal.beq]) (fun h => by cases h)
      | dict kvs => exact iff_of_false (by simp [PyVal.beq]) (fun h => by cases h)
  | .dict kvs, b => by
      cases b with
      | dict kvs2 =>
          simp only [PyVal.beq]
          rw [PyVal.beqDict_iff]
          exact ⟨fun h => by rw [h], fun h => by cases h; rfl⟩
      | null => exact iff_of_false (by simp [PyVal.beq]) (fun h => by cases h)
      | int n => exact iff_of_false (by simp [PyVal.beq]) (fun h => by cases h)
      | str s => exact iff_of_false (by simp [PyVal.beq]) (fun h => by cases h)
      | list xs => exact iff_of_false (by simp [PyVal.beq]) (fun h => by cases h)

theorem PyVal.beqList_iff : ∀ (xs ys : List PyVal), (PyVal.beqList xs ys = true) ↔ xs = ys
  | [], ys => by cases ys <;> simp [PyVal.beqList]
  | x :: xs, ys => by
      cases ys with
      | nil => simp [PyVal.beqList]
      | cons y ys =>
        simp only [PyVal.beqList, Bool.and_eq_true, List.cons.injEq]
        rw [PyVal.beq_iff x y, PyVal.beqList_iff xs ys]

theorem PyVal.beqDict_iff :
    ∀ (xs ys : List (String × PyVal)), (PyVal.beqDict xs ys = true) ↔ xs = ys
  | [], ys => by cases ys <;> simp [PyVal.beqDict]
  | (k, v) :: xs, ys => by
      cases ys with
      | nil => simp [PyVal.beqDict]
      | cons p ys =>
        obtain ⟨l, w⟩ := p
        simp only [PyVal.beqDict, Bool.and_eq_true, List.cons.injEq, Prod.mk.injEq,
          beq_iff_eq]
        rw [PyVal.beq_iff v w, PyVal.beqDict_iff xs ys]
        tauto

end

instance : DecidableEq PyVal := fun a b =>
  decidable_of_iff (PyVal.beq a b = true) (PyVal.beq_iff a b)

/-- A single-quote character, used in Python error messages and `repr` output. -/
def pyq : String := "\x27"

/-- Association-list lookup, modelling Python `d[k]` / `d.get(k)` on a dict
(dict keys are unique, so first match is the match). -/
def alookup {α : Type} : List (String × α) → String → Option α
  | [], _ => none
  | (k1, v) :: rest, k => if k1 = k then some v else alookup rest k

/-- Python type name, as it appears in interpreter error messages. -/
def typeName : PyVal → String
  | .null => "NoneType"
  | .int _ => "int"
  | .str _ => "str"
  | .list _ => "list"
  | .dict _ => "dict"

mutual

/-- Python `repr` of a value (string escaping inside `repr` of a `str` is not
modelled; the statuses and names used in the claims contain no quotes). -/
def pyRepr : PyVal → String
  | .null => "None"
  | .int n => toString n
  | .str s => pyq ++ s ++ pyq
  | .list xs => "[" ++ String.intercalate ", " (pyReprList xs) ++ "]"
  | .dict kvs => "\x7b" ++ String.intercalate ", " (pyReprDict kvs) ++ "\x7d"

def pyReprList : List PyVal → List String
  | [] => []
  | x :: xs => pyRepr x :: pyReprList xs

def pyReprDict : List (String × PyVal) → List String
  | [] => []
  | (k, v) :: kvs => (pyq ++ k ++ pyq ++ ": " ++ pyRepr v) :: pyReprDict kvs

end

/-- Python `str` of a value, as used by f-string interpolation. -/
def pyStr : PyVal → String
  | .str s => s
  | v => pyRepr v

/-- A raised Python exception, as far as the bot's control flow can observe it:
the class determines which `except` clauses match, and `str(error)` is what
`main` uses for deduplication and message rendering.
`serverError` is `exceptions.ServerError` (always raised bare, so `str` is
empty); `keyNotFound` is `exceptions.KeyNotFound`; `unknownStatus` is
`exceptions.UnknownStatus`; `typeError`, `keyError` and `attributeError` are
the builtin classes, with `str(KeyError(m))` rendering as `repr(m)`. -/
inductive PyErr where
  | serverError : PyErr
  | keyNotFound (msg : String) : PyErr
  | unknownStatus (msg : String) : PyErr
  | typeError (msg : String) : PyErr
  | keyError (msg : String) : PyErr
  | attributeError (msg : String) : PyErr
deriving DecidableEq, Repr

/-- Python `str(error)` on a caught exception: `str(ServerError())` is the
empty string; `str(KeyError(m))` is `repr(m)`, i.e. the message wrapped in
single quotes; the other classes were raised with a single string argument,
whose text `str` returns unchanged. -/
def errText : PyErr → String
  | .serverError => ""
  | .keyNotFound m => m
  | .unknownStatus m => m
  | .typeError m => m
  | .keyError m => pyq ++ m ++ pyq
  | .attributeError m => m

/-- CPython's message for `raise None` (the value `logger.error(...)` returns). -/
def raiseNoneMsg : String := "exceptions must derive from BaseException"

/-- CPython's message for evaluating `json.JSONDecodeError()` with no
arguments, which happens while matching the clause
`except json.JSONDecodeError():`. -/
def jsonHandlerMsg : String :=
  "__init__() missing 3 required positional arguments: " ++ pyq ++ "msg" ++ pyq
    ++ ", " ++ pyq ++ "doc" ++ pyq ++ ", and " ++ pyq ++ "pos" ++ pyq

/-- CPython's message for `v - 600` when `v` is not a number. -/
def subTypeErrMsg (v : PyVal) : String :=
  "unsupported operand type(s) for -: " ++ pyq ++ typeName v ++ pyq ++ " and "
    ++ pyq ++ "int" ++ pyq

/-- Outcome of the one `requests.get` call an iteration makes: the request
layer raises one of the three `requests.exceptions` classes, or an HTTP
response arrives with a status code and a body that either decodes as JSON
(`some` the document) or does not (`none`). -/
inductive NetResult where
  | connectionError : NetResult
  | timeout : NetResult
  | requestException : NetResult
  | response (status : Nat) (body : Option PyVal) : NetResult
deriving DecidableEq, Repr

/-- `get_api_answer` (homework.py lines 62–80). The three
`requests.exceptions` handlers each execute `raise logger.error(...)`;
`logger.error` returns `None`, and `raise None` makes the interpreter raise
`TypeError('exceptions must derive from BaseException')`. A non-200 status
raises `ServerError()` bare. On a 200 response whose body is not JSON,
`response.json()` raises `json.JSONDecodeError`, and evaluating the clause
`except json.JSONDecodeError():` calls the class with no arguments, which
itself raises a `TypeError`; that `TypeError` propagates instead. -/
def get_api_answer (net : NetResult) : Except PyErr PyVal :=
  match net with
  | .connectionError => .error (.typeError raiseNoneMsg)
  | .timeout => .error (.typeError raiseNoneMsg)
  | .requestException => .error (.typeError raiseNoneMsg)
  | .response status body =>
      if status ≠ 200 then .error .serverError
      else
        match body with
        | some doc => .ok doc
        | none => .error (.typeError jsonHandlerMsg)

/-- Message of the `KeyNotFound` raised by `check_response`:
`f'В ответе не обнаружен ключ {error}'` where `error` is
`KeyError('homeworks')`, whose `str` is `repr('homeworks')`. -/
def noHomeworksKeyMsg : String :=
  "В ответе не обнаружен ключ " ++ pyq ++ "homeworks" ++ pyq

/-- `check_response` (homework.py lines 83–98): requires a dict, requires the
`homeworks` key, requires its value to be a list, and returns that list
unchanged (the `logger.info` on a non-empty list has no observable effect). -/
def check_response (response : PyVal) : Except PyErr (List PyVal) :=
  match response with
  | .dict kvs =>
      match alookup kvs "homeworks" with
      | none => .error (.keyNotFound noHomeworksKeyMsg)
      | some hw =>
          match hw with
          | .list xs => .ok xs
          | _ => .error (.typeError "Ответ не содержит список домашних работ")
  | _ => .error (.typeError "В ответе API не обнаружен словарь")

/-- `HOMEWORK_VERDICTS` (homework.py lines 33–37). -/
def HOMEWORK_VERDICTS : List (String × String) :=
  [("approved", "Работа проверена: ревьюеру всё понравилось. Ура!"),
   ("reviewing", "Работа взята на проверку ревьюером."),
   ("rejected", "Работа проверена: у ревьюера есть замечания.")]

/-- Message of the `KeyError` re-raised by `parse_status` when key `k` is
missing: `f'Ключ {error} не найден в информации о домашней работе'` with
`str(KeyError(k)) = repr(k)`. -/
def statusKeyMissingMsg (k : String) : String :=
  "Ключ " ++ pyq ++ k ++ pyq ++ " не найден в информации о домашней работе"

/-- `str(error)` of the `KeyError` raised by `HOMEWORK_VERDICTS[status]`,
i.e. `repr(status)` for a hashable key. -/
def kerrRepr : PyVal → String
  | .str s => pyq ++ s ++ pyq
  | .int n => toString n
  | .null => "None"
  | v => pyRepr v

/-- Message of the `UnknownStatus` raised by `parse_status`. -/
def unknownStatusMsg (status : PyVal) : String :=
  "Неизвестный статус домашней работы: " ++ kerrRepr status

/-- CPython's message for subscripting a non-dict with a string key. -/
def subscriptMsg (v : PyVal) : String :=
  match v with
  | .str _ => "string indices must be integers"
  | .list _ => "list indices must be integers or slices, not str"
  | v => pyq ++ typeName v ++ pyq ++ " object is not subscriptable"

/-- `parse_status` (homework.py lines 101–119): reads `homework_name` and
`status` (a missing key's `KeyError` is re-raised as a `KeyError` with a
formatted message), looks the status up in `HOMEWORK_VERDICTS` (a missing
key's `KeyError` is re-raised as `UnknownStatus`; an unhashable status raises
`TypeError` before the `except KeyError` can match), and on success returns
`f'Изменился статус проверки работы "{homework_name}". {verdict}'`.
Subscripting a non-dict raises a `TypeError` not caught by `except KeyError`. -/
def parse_status (homework : PyVal) : Except PyErr String :=
  match homework with
  | .dict kvs =>
      match alookup kvs "homework_name" with
      | none => .error (.keyError (statusKeyMissingMsg "homework_name"))
      | some name =>
          match alookup kvs "status" with
          | none => .error (.keyError (statusKeyMissingMsg "status"))
          | some status =>
              match status with
              | .list _ => .error (.typeError ("unhashable type: " ++ pyq ++ "list" ++ pyq))
              | .dict _ => .error (.typeError ("unhashable type: " ++ pyq ++ "dict" ++ pyq))
              | .str s =>
                  match alookup HOMEWORK_VERDICTS s with
                  | none => .error (.unknownStatus (unknownStatusMsg status))
                  | some verdict =>
                      .ok ("Изменился статус проверки работы \"" ++ pyStr name
                            ++ "\". " ++ verdict)
              | _ => .error (.unknownStatus (unknownStatusMsg status))
  | v => .error (.typeError (subscriptMsg v))

/-- Message used by `parse_date` for both the missing key and the `None`
value. -/
def noDateUpdatedMsg : String := "В ответе API нет ключа date_updated"

/-- `parse_date` (homework.py lines 122–128): `homework.get('date_updated')`
yields `None` both when the key is absent and when its value is `None`, and
in both cases a `KeyError` is raised; otherwise the value is returned.
Calling `.get` on a non-dict raises `AttributeError`. -/
def parse_date (homework : PyVal) : Except PyErr PyVal :=
  match homework with
  | .dict kvs =>
      match alookup kvs "date_updated" with
      | none => .error (.keyError noDateUpdatedMsg)
      | some .null => .error (.keyError noDateUpdatedMsg)
      | some v => .ok v
  | v =>
      .error (.attributeError
        (pyq ++ typeName v ++ pyq ++ " object has no attribute " ++ pyq ++ "get" ++ pyq))

/-- `send_message` (homework.py lines 50–59): attempts the Telegram send and
swallows a `telegram.error.TelegramError`, so it never raises. Its observable
outcome is the list of messages actually delivered: `[message]` on success,
`[]` when the transport raised. -/
def send_message (transportRaises : Bool) (message : String) : List String :=
  if transportRaises then [] else [message]

/-- `RETRY_PERIOD` (homework.py line 29). -/
def RETRY_PERIOD : Int := 600

/-- The loop-local state of `main` (homework.py lines 147–149): `timestamp`
(a Python value — an `int` initially, but `response.get('current_date')` can
make it `None` or anything else), `last_homework` (Python `None` initially,
later the whole `homeworks` list), and `last_error` (Python `None` initially,
later `str(error)` of the last notified error). -/
structure BotState where
  timestamp : PyVal
  last_homework : PyVal
  last_error : Option String
deriving DecidableEq, Repr

/-- The environment of one loop iteration: what the single `requests.get`
returns, and whether the Telegram transport raises `TelegramError` on sends
made during this iteration. -/
structure IterInput where
  net : NetResult
  sendRaises : Bool
deriving DecidableEq, Repr

/-- Observable notification activity of one iteration: the texts passed to
`send_message`, and those actually delivered. -/
structure IterTrace where
  attempted : List String
  delivered : List String
deriving DecidableEq, Repr

/-- The `try:` body of one iteration of `main`'s loop (homework.py lines
152–162), up to but excluding `time.sleep`. On success it yields the new
`timestamp` (`response.get('current_date')`, `None` when absent — the
response is a dict here because `check_response` succeeded), the new
`last_homework`, and the change message passed to `send_message` (if any);
`last_error` is not touched on this path. The expression
`get_api_answer(timestamp - RETRY_PERIOD)` first evaluates the subtraction:
when `timestamp` is not an `int` this raises a `TypeError` inside the `try`.
`send_message` never raises, so `last_homework = homework` always runs after
a send attempt. -/
def tryBody (st : BotState) (net : NetResult) : Except PyErr (PyVal × PyVal × Option String) :=
  match st.timestamp with
  | .int _ =>
      match get_api_answer net with
      | .error e => .error e
      | .ok response =>
          match check_response response with
          | .error e => .error e
          | .ok homework =>
              let newTs : PyVal :=
                match response with
                | .dict kvs => (alookup kvs "current_date").getD .null
                | _ => .null
              if homework ≠ [] ∧ PyVal.list homework ≠ st.last_homework then
                match parse_status (homework.headD .null) with
                | .error e => .error e
                | .ok msg => .ok (newTs, PyVal.list homework, some msg)
              else
                .ok (newTs, st.last_homework, none)
  | v => .error (.typeError (subTypeErrMsg v))

/-- One full iteration of `main`'s loop (homework.py lines 151–171): run the
`try:` body; on success update `timestamp` and `last_homework` and attempt
the change notification if one was produced; on an exception render
`f'Сбой в работе программы: {error}'`, and if `str(error)` differs from
`last_error` attempt the error notification and record `str(error)` as
`last_error`, otherwise send nothing. `time.sleep` runs on every path and is
not modelled. -/
def iterate (st : BotState) (inp : IterInput) : BotState × IterTrace :=
  match tryBody st inp.net with
  | .ok (newTs, newLast, msg) =>
      let attempted := match msg with | some m => [m] | none => []
      ({ timestamp := newTs, last_homework := newLast, last_error := st.last_error },
       { attempted := attempted,
         delivered := match msg with | some m => send_message inp.sendRaises m | none => [] })
  | .error e =>
      if some (errText e) ≠ st.last_error then
        ({ st with last_error := some (errText e) },
         { attempted := ["Сбой в работе программы: " ++ errText e],
           delivered := send_message inp.sendRaises ("Сбой в работе программы: " ++ errText e) })
      else
        (st, { attempted := [], delivered := [] })

/-- Run the loop over a finite prefix of iteration environments, collecting
each iteration's notification trace. -/
def runLoop (st : BotState) : List IterInput → BotState × List IterTrace
  | [] => (st, [])
  | i :: is =>
      let next := iterate st i
      let rest := runLoop next.1 is
      (rest.1, next.2 :: rest.2)

/-- The state `main` enters the loop with (homework.py lines 147–149):
`timestamp = int(time.time())` — some integer, a concrete one here since its
value never matters to the claims — `last_homework = None`,
`last_error = None`. -/
def initState : BotState :=
  { timestamp := .int 1700000000, last_homework := .null, last_error := none }

/-- The `homeworks` list an iteration obtains from `check_response`, when it
gets that far: the timestamp subtraction, the fetch and the validation must
all succeed. -/
def homeworksOf (st : BotState) (net : NetResult) : Option (List PyVal) :=
  match st.timestamp with
  | .int _ =>
      match get_api_answer net with
      | .ok response =>
          match check_response response with
          | .ok homework => some homework
          | .error _ => none
      | .error _ => none
  | _ => none

/-- `response.get('current_date')` as `main` evaluates it on a successful
iteration (dicts only reach that line). -/
def dictGet (v : PyVal) (k : String) : PyVal :=
  match v with
  | .dict kvs => (alookup kvs k).getD .null
  | _ => .null

/-- The code's realization of the spec's `SchemaError` class: the validation
failures `check_response` raises are `KeyNotFound` (missing `homeworks` key)
and `TypeError` (non-dict document, non-list `homeworks` value). -/
def isSchemaError : PyErr → Bool
  | .keyNotFound _ => true
  | .typeError _ => true
  | _ => false

/-- The `status` field of a homework record, used to phrase claims about
status-based deduplication. -/
def statusField (v : PyVal) : Option PyVal :=
  match v with
  | .dict kvs => alookup kvs "status"
  | _ => none

/-- C4 (evidence of the code bug): when the network call raises a
connection error, a timeout, or a generic request error, `get_api_answer`
executes `raise logger.error(...)`; `logger.error` returns `None`, so what
actually propagates is `TypeError('exceptions must derive from
BaseException')` — not a `TransportError`-class exception identifying the
transport failure. -/
theorem claim_C4 :
    get_api_answer .connectionError = .error (.typeError raiseNoneMsg) ∧
    get_api_answer .timeout = .error (.typeError raiseNoneMsg) ∧
    get_api_answer .requestException = .error (.typeError raiseNoneMsg) ∧
    raiseNoneMsg = "exceptions must derive from BaseException" :=
  ⟨rfl, rfl, rfl, rfl⟩

/-- C5 (evidence of the code bug): on an HTTP 200 response whose body is not
decodable JSON, the clause `except json.JSONDecodeError():` instantiates the
exception class while matching, which raises a `TypeError` about the missing
constructor arguments; no `MalformedResponseError`-class exception is raised
(none is even defined in `exceptions.py`). -/
theorem claim_C5 :
    get_api_answer (.response 200 none) = .error (.typeError jsonHandlerMsg) := rfl

/-- C6: `check_response` fails exactly when the document is not a dict, lacks
the `homeworks` key, or holds a non-list under it (every such failure being a
member of the spec's `SchemaError` class, realized in code as `KeyNotFound` or
`TypeError`), and for every dict whose `homeworks` value is a list — the empty
list included — it returns that list unchanged. -/
theorem claim_C6 (doc : PyVal) :
    (∀ e, check_response doc = .error e → isSchemaError e = true) ∧
    ((∃ xs, check_response doc = .ok xs) ↔
      ∃ kvs xs, doc = .dict kvs ∧ alookup kvs "homeworks" = some (.list xs)) ∧
    (∀ kvs xs, doc = .dict kvs → alookup kvs "homeworks" = some (.list xs) →
      check_response doc = .ok xs) := by
  have key : ∀ kvs xs, alookup kvs "homeworks" = some (.list xs) →
      check_response (.dict kvs) = .ok xs := by
    intro kvs xs h
    simp [check_response, h]
  refine ⟨?_, ⟨?_, ?_⟩, fun kvs xs hd hl => hd ▸ key kvs xs hl⟩
  · intro e he
    cases doc with
    | dict kvs =>
        cases hl : alookup kvs "homeworks" with
        | none =>
            simp [check_response, hl] at he
            rw [← he]
            rfl
        | some hw =>
            cases hw <;> simp [check_response, hl] at he <;> rw [← he] <;> rfl
    | null => simp [check_response] at he; rw [← he]; rfl
    | int n => simp [check_response] at he; rw [← he]; rfl
    | str s => simp [check_response] at he; rw [← he]; rfl
    | list xs => simp [check_response] at he; rw [← he]; rfl
  · rintro ⟨xs, hxs⟩
    cases doc with
    | dict kvs =>
        cases hl : alookup kvs "homeworks" with
        | none => simp [check_response, hl] at hxs
        | some hw =>
            cases hw <;> simp [check_response, hl] at hxs
            exact ⟨kvs, xs, rfl, by rw [hl, hxs]⟩
    | null => simp [check_response] at hxs
    | int n => simp [check_response] at hxs
    | str s => simp [check_response] at hxs
    | list ys => simp [check_response] at hxs
  · rintro ⟨kvs, xs, rfl, hl⟩
    exact ⟨xs, key kvs xs hl⟩

/-- Witness for C6 at a concrete document with an empty `homeworks` list. -/
theorem claim_C6_witness :
    check_response (.dict [("homeworks", .list [])]) = .ok [] :=
  (claim_C6 (.dict [("homeworks", .list [])])).2.2 [("homeworks", .list [])] [] rfl rfl

/-- C7: for a record carrying `homework_name` and a string `status`, a status
outside `HOMEWORK_VERDICTS` makes `parse_status` raise `UnknownStatus` with
the raw status text inside the message, and a catalog status yields the
formatted change message containing the homework name and the verdict text. -/
theorem claim_C7 (kvs : List (String × PyVal)) (name : PyVal) (s : String)
    (h1 : alookup kvs "homework_name" = some name)
    (h2 : alookup kvs "status" = some (.str s)) :
    (alookup HOMEWORK_VERDICTS s = none →
      parse_status (.dict kvs) = .error (.unknownStatus (unknownStatusMsg (.str s))) ∧
      ∃ pre post, unknownStatusMsg (.str s) = pre ++ s ++ post) ∧
    (∀ v, alookup HOMEWORK_VERDICTS s = some v →
      parse_status (.dict kvs) =
        .ok ("Изменился статус проверки работы \"" ++ pyStr name ++ "\". " ++ v) ∧
      ∃ a b c, "Изменился статус проверки работы \"" ++ pyStr name ++ "\". " ++ v
          = a ++ pyStr name ++ b ++ v ++ c) := by
  constructor
  · intro hnone
    refine ⟨by simp [parse_status, h1, h2, hnone],
      "Неизвестный статус домашней работы: " ++ pyq, pyq, ?_⟩
    simp [unknownStatusMsg, kerrRepr, String.append_assoc]
  · intro v hv
    refine ⟨by simp [parse_status, h1, h2, hv],
      "Изменился статус проверки работы \"", "\". ", "", ?_⟩
    simp [String.append_assoc]

/-- Witness for C7 at a concrete record with the unknown status `weird` and
at one with the catalog status `approved`. -/
theorem claim_C7_witness :
    parse_status (.dict [("homework_name", .str "hw"), ("status", .str "weird")])
      = .error (.unknownStatus (unknownStatusMsg (.str "weird"))) ∧
    parse_status (.dict [("homework_name", .str "hw"), ("status", .str "approved")])
      = .ok ("Изменился статус проверки работы \"" ++ pyStr (.str "hw") ++ "\". "
          ++ "Работа проверена: ревьюеру всё понравилось. Ура!") :=
  ⟨((claim_C7 [("homework_name", .str "hw"), ("status", .str "weird")]
      (.str "hw") "weird" rfl rfl).1 rfl).1,
   ((claim_C7 [("homework_name", .str "hw"), ("status", .str "approved")]
      (.str "hw") "approved" rfl rfl).2
      "Работа проверена: ревьюеру всё понравилось. Ура!" rfl).1⟩

/-- C10: `parse_date` returns the `date_updated` value when it is present and
not `None`, and raises a `KeyError` when the key is absent or its value is
`None`. -/
theorem claim_C10 (kvs : List (String × PyVal)) :
    (alookup kvs "date_updated" = none →
      parse_date (.dict kvs) = .error (.keyError noDateUpdatedMsg)) ∧
    (alookup kvs "date_updated" = some .null →
      parse_date (.dict kvs) = .error (.keyError noDateUpdatedMsg)) ∧
    (∀ v, alookup kvs "date_updated" = some v → v ≠ .null →
      parse_date (.dict kvs) = .ok v) := by
  refine ⟨fun h => by simp [parse_date, h], fun h => by simp [parse_date, h],
    fun v h hv => ?_⟩
  cases v with
  | null => exact absurd rfl hv
  | int n => simp [parse_date, h]
  | str s => simp [parse_date, h]
  | list xs => simp [parse_date, h]
  | dict kvs2 => simp [parse_date, h]

/-- Witness for C10 at concrete records: key absent, value `None`, and an
ordinary value. -/
theorem claim_C10_witness :
    parse_date (.dict []) = .error (.keyError noDateUpdatedMsg) ∧
    parse_date (.dict [("date_updated", .null)]) = .error (.keyError noDateUpdatedMsg) ∧
    parse_date (.dict [("date_updated", .str "d")]) = .ok (.str "d") :=
  ⟨(claim_C10 []).1 rfl,
   (claim_C10 [("date_updated", .null)]).2.1 rfl,
   (claim_C10 [("date_updated", .str "d")]).2.2 (.str "d") rfl (by decide)⟩

/-- Unfolding lemma: a successful `try:` body makes the iteration install the
new timestamp and `last_homework` and leave `last_error` untouched. -/
theorem iterate_ok_state (st : BotState) (inp : IterInput) (a b : PyVal) (c : Option String)
    (h : tryBody st inp.net = .ok (a, b, c)) :
    (iterate st inp).1 =
      { timestamp := a, last_homework := b, last_error := st.last_error } := by
  unfold iterate
  rw [h]

/-- Unfolding lemma: a successful `try:` body that produced no change message
attempts no notification. -/
theorem iterate_ok_none_attempted (st : BotState) (inp : IterInput) (a b : PyVal)
    (h : tryBody st inp.net = .ok (a, b, none)) :
    (iterate st inp).2.attempted = [] := by
  unfold iterate
  rw [h]

/-- Unfolding lemma: a failing iteration whose rendered error text differs
from `last_error` records the text and attempts the error notification. -/
theorem iterate_error_new (st : BotState) (inp : IterInput) (e : PyErr)
    (h : tryBody st inp.net = .error e)
    (hne : some (errText e) ≠ st.last_error) :
    iterate st inp =
      ({ st with last_error := some (errText e) },
       { attempted := ["Сбой в работе программы: " ++ errText e],
         delivered := send_message inp.sendRaises ("Сбой в работе программы: " ++ errText e) }) := by
  unfold iterate
  rw [h]
  dsimp only
  rw [if_pos hne]

/-- Unfolding lemma: a failing iteration whose rendered error text equals
`last_error` changes nothing and sends nothing. -/
theorem iterate_error_dup (st : BotState) (inp : IterInput) (e : PyErr)
    (h : tryBody st inp.net = .error e)
    (heq : some (errText e) = st.last_error) :
    iterate st inp = (st, { attempted := [], delivered := [] }) := by
  unfold iterate
  rw [h]
  dsimp only
  rw [if_neg (not_not_intro heq)]

/-- Inversion: when an iteration obtains a `homeworks` list, its state held an
integer timestamp, the fetch succeeded, and validation succeeded on the
fetched document. -/
theorem homeworksOf_inv (st : BotState) (net : NetResult) (hw : List PyVal)
    (h : homeworksOf st net = some hw) :
    ∃ n resp, st.timestamp = .int n ∧ get_api_answer net = .ok resp ∧
      check_response resp = .ok hw := by
  unfold homeworksOf at h
  cases hts : st.timestamp <;> rw [hts] at h <;> try simp at h
  case int n =>
    cases hga : get_api_answer net <;> rw [hga] at h <;> try simp at h
    case ok resp =>
      cases hcr : check_response resp <;> rw [hcr] at h <;> simp at h
      case ok hw0 =>
        exact ⟨n, resp, rfl, rfl, by rw [hcr, h]⟩

/-- Unfolding lemma: the `try:` body once the fetch and the validation have
succeeded — what remains is the change check against `last_homework`, the
`parse_status` call, and the `current_date` update. -/
theorem tryBody_eq_of (st : BotState) (net : NetResult) (n : Int) (resp : PyVal)
    (hw : List PyVal) (hts : st.timestamp = .int n)
    (hga : get_api_answer net = .ok resp) (hcr : check_response resp = .ok hw) :
    tryBody st net =
      if hw ≠ [] ∧ PyVal.list hw ≠ st.last_homework then
        match parse_status (hw.headD .null) with
        | .error e => .error e
        | .ok msg => .ok (dictGet resp "current_date", PyVal.list hw, some msg)
      else .ok (dictGet resp "current_date", st.last_homework, none) := by
  cases resp with
  | dict kvs =>
      unfold tryBody
      rw [hts]
      dsimp only
      rw [hga]
      dsimp only
      rw [hcr]
      dsimp only [dictGet]
  | null => exact absurd hcr (by simp [check_response])
  | int k => exact absurd hcr (by simp [check_response])
  | str s => exact absurd hcr (by simp [check_response])
  | list xs => exact absurd hcr (by simp [check_response])

/-- C9: when a failing iteration's rendered error text differs from the
stored `last_error`, the text is recorded as the new `last_error` and the
notification is attempted, whether or not the Telegram transport raises —
`send_message` swallows the transport error, so a failed delivery still
suppresses identical later errors. -/
theorem claim_C9 (st : BotState) (inp : IterInput) (e : PyErr)
    (h : tryBody st inp.net = .error e)
    (hnew : some (errText e) ≠ st.last_error) :
    (iterate st inp).1.last_error = some (errText e) ∧
    (iterate st inp).2.attempted = ["Сбой в работе программы: " ++ errText e] ∧
    (inp.sendRaises = true → (iterate st inp).2.delivered = []) := by
  rw [iterate_error_new st inp e h hnew]
  exact ⟨rfl, rfl, fun hs => by simp [send_message, hs]⟩

/-- Witness for C9: a 500 response with a raising transport still records the
error text and delivers nothing. -/
theorem claim_C9_witness :
    (iterate initState ⟨.response 500 none, true⟩).1.last_error
        = some (errText .serverError) ∧
    (iterate initState ⟨.response 500 none, true⟩).2.attempted
        = ["Сбой в работе программы: " ++ errText .serverError] ∧
    (iterate initState ⟨.response 500 none, true⟩).2.delivered = [] :=
  ⟨(claim_C9 initState ⟨.response 500 none, true⟩ .serverError rfl (by decide)).1,
   (claim_C9 initState ⟨.response 500 none, true⟩ .serverError rfl (by decide)).2.1,
   (claim_C9 initState ⟨.response 500 none, true⟩ .serverError rfl (by decide)).2.2 rfl⟩

/-- C3 as amended: a successful iteration leaves `last_error` exactly as it
was — the code contains no reset of `last_error` on the success path. -/
theorem claim_C3_amended (st : BotState) (inp : IterInput) (a b : PyVal) (c : Option String)
    (h : tryBody st inp.net = .ok (a, b, c)) :
    (iterate st inp).1.last_error = st.last_error := by
  rw [iterate_ok_state st inp a b c h]

/-- Witness for the amended C3 at a concrete successful iteration. -/
theorem claim_C3_amended_witness :
    (iterate initState
        ⟨.response 200 (some (.dict [("homeworks", .list []), ("current_date", .int 7)])), false⟩).1.last_error
      = initState.last_error :=
  claim_C3_amended initState
    ⟨.response 200 (some (.dict [("homeworks", .list []), ("current_date", .int 7)])), false⟩
    (.int 7) .null none rfl

/-- Concrete iteration inputs used by the counterexamples: a 200 response
missing the `homeworks` key (every iteration on it fails validation), and a
200 response that validates with an empty list (every iteration on it
succeeds). -/
def failInp : IterInput := ⟨.response 200 (some (.dict [("current_date", .int 5)])), false⟩

def okInp : IterInput :=
  ⟨.response 200 (some (.dict [("homeworks", .list []), ("current_date", .int 7)])), false⟩

/-- C3 counterexample: run `[fail, success]` from the initial state. The
second iteration completes successfully, yet `last_error` still holds the
first iteration's (non-empty) error text instead of being reset. -/
theorem claim_C3_cex :
    (runLoop initState [failInp, okInp]).1.last_error = some noHomeworksKeyMsg ∧
    noHomeworksKeyMsg ≠ "" ∧
    (tryBody (iterate initState failInp).1 okInp.net).isOk = true := by
  refine ⟨by decide, by decide, by decide⟩

/-- C2 as amended: within a run of consecutive failing iterations whose
rendered error text is identical, no iteration after the first attempts a
notification; the first attempts one only when the text differs from the
`last_error` stored when the run began (which, since `last_error` is never
reset, it need not — see the counterexample). -/
theorem claim_C2_amended (st : BotState) (i1 i2 : IterInput) (e1 e2 : PyErr)
    (h1 : tryBody st i1.net = .error e1)
    (h2 : tryBody (iterate st i1).1 i2.net = .error e2)
    (he : errText e2 = errText e1) :
    (iterate (iterate st i1).1 i2).2.attempted = [] := by
  have hle : (iterate st i1).1.last_error = some (errText e1) := by
    by_cases hc : some (errText e1) = st.last_error
    · rw [iterate_error_dup st i1 e1 h1 hc]
      exact hc.symm
    · rw [iterate_error_new st i1 e1 h1 hc]
  rw [iterate_error_dup _ i2 e2 h2 (by rw [hle, he])]

/-- Witness for the amended C2: two consecutive iterations on the same
invalid document; the second attempts nothing. -/
theorem claim_C2_amended_witness :
    (iterate (iterate initState failInp).1 failInp).2.attempted = [] :=
  claim_C2_amended initState failInp failInp
    (.keyNotFound noHomeworksKeyMsg) (.keyNotFound noHomeworksKeyMsg) rfl rfl rfl

/-- C2 counterexample: run `[fail, success, fail]` with the identical failure
document. The third iteration begins a new run of consecutive identical
failures, but — `last_error` never having been reset by the successful second
iteration — that run sends zero notifications, not exactly one. -/
theorem claim_C2_cex :
    (runLoop initState [failInp, okInp, failInp]).2.map IterTrace.attempted
      = [["Сбой в работе программы: " ++ noHomeworksKeyMsg], [], []] ∧
    (tryBody (runLoop initState [failInp, okInp]).1 failInp.net).isOk = false := by
  refine ⟨by decide, by decide⟩

/-- C1 as amended: the change-detection key is the entire `homeworks` list,
compared by Python `==` against `last_homework`. When two iterations both
reach validation and obtain the same non-empty list — in particular when the
second repeats the first exactly — the second sends no change notification:
after the first iteration completes its `try:` body, `last_homework` holds
that list, so the comparison suppresses the repeat. (Equality of the `status`
field alone does not suppress — see the counterexample.) -/
theorem claim_C1_amended (st : BotState) (i1 i2 : IterInput) (hw : List PyVal)
    (hne : hw ≠ [])
    (h1ok : ∃ r, tryBody st i1.net = .ok r)
    (h1hw : homeworksOf st i1.net = some hw)
    (h2hw : homeworksOf (iterate st i1).1 i2.net = some hw) :
    (iterate (iterate st i1).1 i2).2.attempted = [] := by
  obtain ⟨r, hr⟩ := h1ok
  obtain ⟨n, resp, hts, hga, hcr⟩ := homeworksOf_inv st i1.net hw h1hw
  have ht1 := tryBody_eq_of st i1.net n resp hw hts hga hcr
  have hlast : (iterate st i1).1.last_homework = .list hw := by
    by_cases hc : hw ≠ [] ∧ PyVal.list hw ≠ st.last_homework
    · rw [if_pos hc] at ht1
      cases hps : parse_status (hw.headD .null) with
      | error e =>
          rw [hps] at ht1
          rw [ht1] at hr
          exact absurd hr (by simp)
      | ok m =>
          rw [hps] at ht1
          rw [iterate_ok_state st i1 _ _ _ ht1]
    · rw [if_neg hc] at ht1
      rw [iterate_ok_state st i1 _ _ _ ht1]
      push_neg at hc
      exact (hc hne).symm
  obtain ⟨m, resp2, hts2, hga2, hcr2⟩ := homeworksOf_inv _ i2.net hw h2hw
  have ht2 := tryBody_eq_of _ i2.net m resp2 hw hts2 hga2 hcr2
  rw [if_neg (fun hcon => hcon.2 hlast.symm)] at ht2
  exact iterate_ok_none_attempted _ i2 _ _ ht2

/-- Homework record, response, and iteration input for the C1 witness: the
second iteration returns the identical one-element list. -/
def c1rec : PyVal := .dict [("homework_name", .str "hw"), ("status", .str "approved")]

def c1resp : PyVal := .dict [("homeworks", .list [c1rec]), ("current_date", .int 2)]

def c1inp : IterInput := ⟨.response 200 (some c1resp), false⟩

/-- Witness for the amended C1: an iteration notifies on a new one-element
list, and the next iteration, seeing the identical list, attempts nothing. -/
theorem claim_C1_amended_witness :
    (iterate (iterate initState c1inp).1 c1inp).2.attempted = [] :=
  claim_C1_amended initState c1inp c1inp [c1rec] (by decide)
    ⟨(.int 2, .list [c1rec],
      some ("Изменился статус проверки работы \"hw\". "
        ++ "Работа проверена: ревьюеру всё понравилось. Ура!")), rfl⟩
    (by decide) (by decide)

/-- Homework records and responses for the C1 counterexample: the tracked
item's `status` is identical across the two polls, but `date_updated`
changed, so the lists differ. -/
def c1hwA : PyVal :=
  .dict [("homework_name", .str "hw"), ("status", .str "approved"), ("date_updated", .str "d1")]

def c1hwB : PyVal :=
  .dict [("homework_name", .str "hw"), ("status", .str "approved"), ("date_updated", .str "d2")]

def c1respA : PyVal := .dict [("homeworks", .list [c1hwA]), ("current_date", .int 1700000600)]

def c1respB : PyVal := .dict [("homeworks", .list [c1hwB]), ("current_date", .int 1700001200)]

/-- C1 counterexample: two consecutive polls whose tracked item has the
identical `status` value each send a change notification, because the code
compares whole `homeworks` lists and `date_updated` changed — refuting "no
further notification is sent while the status stays the same". -/
theorem claim_C1_cex :
    statusField c1hwA = statusField c1hwB ∧
    (runLoop initState
        [⟨.response 200 (some c1respA), false⟩, ⟨.response 200 (some c1respB), false⟩]).2.map
        (fun t => t.attempted.length) = [1, 1] := by
  refine ⟨by decide, by decide⟩

/-- C8 as amended: after a successful iteration the next query timestamp is
the raw value of the response's `current_date` key — `None` when the key is
absent, with no local-clock fallback — and when it is `None` every subsequent
iteration fails inside `try:` with the interpreter's `TypeError` for
`None - RETRY_PERIOD` before any request is made. -/
theorem claim_C8_amended (st : BotState) (inp : IterInput) (n : Int) (resp : PyVal)
    (hts : st.timestamp = .int n)
    (hga : get_api_answer inp.net = .ok resp)
    (hok : ∃ r, tryBody st inp.net = .ok r) :
    (iterate st inp).1.timestamp = dictGet resp "current_date" ∧
    (dictGet resp "current_date" = .null →
      ∀ i2 : IterInput, tryBody (iterate st inp).1 i2.net
        = .error (.typeError (subTypeErrMsg .null))) := by
  obtain ⟨r, hr⟩ := hok
  cases hcr : check_response resp with
  | error e =>
      exfalso
      unfold tryBody at hr
      rw [hts] at hr
      dsimp only at hr
      rw [hga] at hr
      dsimp only at hr
      rw [hcr] at hr
      simp at hr
  | ok hw =>
      have ht := tryBody_eq_of st inp.net n resp hw hts hga hcr
      have hts1 : (iterate st inp).1.timestamp = dictGet resp "current_date" := by
        by_cases hc : hw ≠ [] ∧ PyVal.list hw ≠ st.last_homework
        · rw [if_pos hc] at ht
          cases hps : parse_status (hw.headD .null) with
          | error e2 =>
              rw [hps] at ht
              rw [ht] at hr
              exact absurd hr (by simp)
          | ok m =>
              rw [hps] at ht
              rw [iterate_ok_state st inp _ _ _ ht]
        · rw [if_neg hc] at ht
          rw [iterate_ok_state st inp _ _ _ ht]
      refine ⟨hts1, fun hnull i2 => ?_⟩
      unfold tryBody
      rw [hts1, hnull]

/-- Witness for the amended C8 at a concrete successful iteration whose
response lacks `current_date`: the stored timestamp becomes `None` and the
next iteration fails with the `TypeError` for `None - RETRY_PERIOD`. -/
theorem claim_C8_amended_witness :
    (iterate initState ⟨.response 200 (some (.dict [("homeworks", .list [])])), false⟩).1.timestamp
        = dictGet (.dict [("homeworks", .list [])]) "current_date" ∧
    tryBody (iterate initState ⟨.response 200 (some (.dict [("homeworks", .list [])])), false⟩).1
        okInp.net = .error (.typeError (subTypeErrMsg .null)) :=
  ⟨(claim_C8_amended initState ⟨.response 200 (some (.dict [("homeworks", .list [])])), false⟩
      1700000000 (.dict [("homeworks", .list [])]) rfl rfl ⟨(.null, .null, none), rfl⟩).1,
   (claim_C8_amended initState ⟨.response 200 (some (.dict [("homeworks", .list [])])), false⟩
      1700000000 (.dict [("homeworks", .list [])]) rfl rfl ⟨(.null, .null, none), rfl⟩).2
      (by decide) okInp⟩

/-- C8 counterexample: a successful iteration whose response has no
`current_date` leaves `timestamp = None` — not a local-clock integer — and
the next iteration, though its own response would validate, fails and sends
the `TypeError` text as an error notification. -/
theorem claim_C8_cex :
    (iterate initState ⟨.response 200 (some (.dict [("homeworks", .list [])])), false⟩).1.timestamp
        = .null ∧
    (iterate (iterate initState ⟨.response 200 (some (.dict [("homeworks", .list [])])), false⟩).1
        okInp).2.attempted
      = ["Сбой в работе программы: " ++ subTypeErrMsg .null] := by
  refine ⟨by decide, by decide⟩
